import Mathlib

/-!
Shallow embedding of the Laptop Smart Power Manager core
(`src/lspm/laptop_smart_power_manager.py`, with its parameters from
`src/lspm/parameters.py` and exceptions from `src/lspm/exceptions.py`).

Modelling conventions:
* Python exceptions become explicit `Option LSPMError` result fields
  (`raised` for exceptions propagating to the caller, `timerRaised` for
  exceptions raised on a `threading.Timer` execution context, which in
  CPython terminate only that timer thread and are never seen by the
  caller of the method that armed the timer).
* The `threading.Event` named `__finished` and the plain boolean
  `__connection_lost` become the `finished` and `connectionLost` fields of
  `ControllerState`; `self.exception` becomes the `exception` field.
* Plug commands (`turn_on` / `turn_off`) are recorded in traces
  (`List PlugCmd`) in the order the code issues them.
* The smart plug's `is_on` answers during a state-verification poll loop
  are a function `isOn : Nat → Bool` giving the answer to the k-th poll;
  `pollBudget` is the number of polls the caller performs before the
  `STATE_CHANGE_TIMEOUT` timer fires (in the code, `STATE_CHANGE_TIMEOUT`
  seconds at one poll per 0.1 s).
* The initial `is_on` reachability query of `__check_connection_to_smart_plug`
  (which in Python may raise any exception) is a boolean `isOnQueryOk`:
  `true` when the query returns, `false` when it raises.
* `psutil.sensors_battery()` becomes `Option SensorsBattery`, where the
  `power_plugged` field is `Option Bool` (`none` models Python `None`).
-/

namespace LSPM

/-- Exception taxonomy of `src/lspm/exceptions.py` (the subclasses of
`LSPMException` that the controller can raise), each carrying the
constructor argument of the corresponding Python class. -/
inductive LSPMError where
  | powerSupplyStatusCheckError (errorType : String)
  | smartPlugConnectionError (msg : String)
  | smartPlugInteractionError (action : String)
  deriving DecidableEq, Repr

/-- `PowerSupplyStatusCheckError.error_types` lookup table
(`exceptions.py`, lines 52-55). -/
def powerSupplyStatusCheckErrorTypes (errorType : String) : Option String :=
  if errorType = "ac_power_cable" then
    some "Unable to know if the AC power cable is connected"
  else if errorType = "battery_state" then
    some "Unable to get information about battery state"
  else
    none

/-- The `error_msg` attribute each exception ends up with (its `__str__`). -/
def errorMsg : LSPMError → Option String
  | .powerSupplyStatusCheckError t => powerSupplyStatusCheckErrorTypes t
  | .smartPlugConnectionError m => some m
  | .smartPlugInteractionError a => some ("Unable to turn " ++ a ++ " the Smart Plug")

/-- `BATTERY_LOW` from `parameters.py`. -/
def BATTERY_LOW : Int := 20

/-- `BATTERY_HIGH` from `parameters.py`. -/
def BATTERY_HIGH : Int := 80

/-- `REFRESH_TIME` from `parameters.py` (seconds). -/
def REFRESH_TIME : Nat := 30

/-- `STATE_CHANGE_TIMEOUT` from `parameters.py` (seconds). -/
def STATE_CHANGE_TIMEOUT : Nat := 10

/-- A command sent to the smart plug (`turn_on()` / `turn_off()`). -/
inductive PlugCmd where
  | turnOn
  | turnOff
  deriving DecidableEq, Repr

/-- The object returned by `psutil.sensors_battery()`: a battery percentage
and the `power_plugged` attribute, which can be Python `None`. -/
structure SensorsBattery where
  percent : Int
  power_plugged : Option Bool
  deriving DecidableEq, Repr

/-- The mutable state of a `LaptopSmartPowerManager` instance that the
claims are about: the `__finished` event, the `__connection_lost` flag,
the `exception` slot, the construction-time
`handle_exceptions_in_main_thread` parameter, and whether `Thread.start()`
has been called (so that `run` executes on a background thread). -/
structure ControllerState where
  finished : Bool
  connectionLost : Bool
  exception : Option LSPMError
  handleExceptionsInMainThread : Bool
  threadStarted : Bool
  deriving DecidableEq, Repr

/-- The state of a freshly allocated controller before `__init__` did
anything (lines 47-50 of `laptop_smart_power_manager.py`). -/
def initialState (handleExceptionsInMainThread : Bool) : ControllerState :=
  { finished := false
    connectionLost := false
    exception := none
    handleExceptionsInMainThread := handleExceptionsInMainThread
    threadStarted := false }

/-- `LaptopSmartPowerManager.stop` (lines 185-194): sets the `__finished`
event, then sends `turn_off` to the plug unless `__connection_lost` is set.
Returns the new state and the plug commands the call issued. -/
def stop (s : ControllerState) : ControllerState × List PlugCmd :=
  let s1 := { s with finished := true }
  if s1.connectionLost then (s1, []) else (s1, [PlugCmd.turnOff])

/-- `Thread.start` on the controller: launches `run` on a background
execution context. Never called by `__init__`; only the owning process
calls it after construction. -/
def start (s : ControllerState) : ControllerState :=
  { s with threadStarted := true }

/-- Result of `__check_connection_to_smart_plug`: the updated state, the
plug commands issued during the call, and the exception propagating to the
caller, if any. -/
structure CheckConnResult where
  state : ControllerState
  cmds : List PlugCmd
  raised : Option LSPMError
  deriving Repr

/-- `LaptopSmartPowerManager.__check_connection_to_smart_plug`
(lines 79-92): queries `self.__smart_plug.is_on`; if the query raises,
sets `__connection_lost`, calls `stop()`, and raises
`SmartPlugConnectionError("Connection lost to the Smart Plug")`. -/
def check_connection_to_smart_plug (s : ControllerState) (isOnQueryOk : Bool) :
    CheckConnResult :=
  if isOnQueryOk then
    { state := s, cmds := [], raised := none }
  else
    let s1 := { s with connectionLost := true }
    let r := stop s1
    { state := r.1
      cmds := r.2
      raised := some (.smartPlugConnectionError "Connection lost to the Smart Plug") }

/-- ASCII lowercasing of one character, as Python `str.lower` does on the
ASCII range (the only characters the controller ever passes: the `state`
argument is the literal `"on"` or `"off"` at every call site). -/
def charLower (c : Char) : Char :=
  if 65 ≤ c.toNat ∧ c.toNat ≤ 90 then Char.ofNat (c.toNat + 32) else c

/-- `state.lower()` on the ASCII range. -/
def strLower (s : String) : String :=
  String.mk (s.data.map charLower)

/-- Line 113 of `__check_smart_plug_state`:
`expected_state = True if state.lower() == "on" else False`. -/
def expected_state (state : String) : Bool :=
  strLower state == "on"

/-- Result of `__check_smart_plug_state`: the updated state, the plug
commands issued during the call (by the `stop()` inside the timer
callback), the exception raised on the timer's execution context (never
seen by the caller), whether the call returned normally to its caller, and
whether the state-confirmed log line (line 121) was reached. -/
structure CheckStateResult where
  state : ControllerState
  cmds : List PlugCmd
  timerRaised : Option LSPMError
  returnedNormally : Bool
  loggedConfirmed : Bool
  deriving Repr

/-- Whether some poll among the first `pollBudget` polls observes the
plug in the expected state (line 117: `self.__smart_plug.is_on is expected_state`). -/
def pollConverges (isOn : Nat → Bool) (expected : Bool) (pollBudget : Nat) : Bool :=
  (List.range pollBudget).any (fun k => isOn k == expected)

/-- `LaptopSmartPowerManager.__check_smart_plug_state` (lines 94-121).
The caller polls `is_on` every 0.1 s while the `state_changed` event is
unset; a `Timer` armed for `STATE_CHANGE_TIMEOUT` seconds runs
`interaction_lost` if no poll converged first. `pollBudget` is the number
of polls that happen before the timer fires. On convergence the timer is
cancelled and the caller returns. On timeout, `interaction_lost` (on the
timer thread) sets `state_changed`, sets `__connection_lost`, calls
`stop()` (which sends nothing, the flag being already set), and raises
`SmartPlugInteractionError(state)` — an exception that dies with the timer
thread; the caller's loop then exits on the set event, `timeout.cancel()`
is a no-op, the state-confirmed line is logged and the caller returns
normally. -/
def check_smart_plug_state (s : ControllerState) (isOn : Nat → Bool)
    (state : String) (pollBudget : Nat) : CheckStateResult :=
  if pollConverges isOn (expected_state state) pollBudget then
    { state := s
      cmds := []
      timerRaised := none
      returnedNormally := true
      loggedConfirmed := true }
  else
    let s1 := { s with connectionLost := true }
    let r := stop s1
    { state := r.1
      cmds := r.2
      timerRaised := some (.smartPlugInteractionError state)
      returnedNormally := true
      loggedConfirmed := true }

/-- `LaptopSmartPowerManager.__get_battery_state` (lines 123-138):
returns `(battery.percent, battery.power_plugged)`, raising
`PowerSupplyStatusCheckError("battery_state")` when `sensors_battery()`
returned `None` and `PowerSupplyStatusCheckError("ac_power_cable")` when
`power_plugged` is `None`. -/
def get_battery_state (battery : Option SensorsBattery) :
    Except LSPMError (Int × Bool) :=
  match battery with
  | some b =>
    match b.power_plugged with
    | none => .error (.powerSupplyStatusCheckError "ac_power_cable")
    | some p => .ok (b.percent, p)
  | none => .error (.powerSupplyStatusCheckError "battery_state")

/-- Result of `__manage_power_supply`: the updated state, the plug
commands issued (in order), the targets of the state verifications it
ran, the exception propagating to the caller (from
`__get_battery_state`), and the exception raised on a timer thread by a
verification timeout, if any. -/
structure ManageResult where
  state : ControllerState
  cmds : List PlugCmd
  verifyTargets : List String
  raised : Option LSPMError
  timerRaised : Option LSPMError
  deriving Repr

/-- `LaptopSmartPowerManager.__manage_power_supply` (lines 140-156): reads
the battery state; if unplugged with level strictly below `BATTERY_LOW`,
sends `turn_on` and verifies state "on"; else if plugged with level at
least `BATTERY_HIGH`, sends `turn_off` and verifies state "off"; else
does nothing. `isOn` and `pollBudget` drive the verification, when one
runs. -/
def manage_power_supply (s : ControllerState) (battery : Option SensorsBattery)
    (isOn : Nat → Bool) (pollBudget : Nat) : ManageResult :=
  match get_battery_state battery with
  | .error e =>
    { state := s, cmds := [], verifyTargets := [], raised := some e, timerRaised := none }
  | .ok (battery_level, power_plugged) =>
    if !power_plugged && battery_level < BATTERY_LOW then
      let r := check_smart_plug_state s isOn "on" pollBudget
      { state := r.state
        cmds := PlugCmd.turnOn :: r.cmds
        verifyTargets := ["on"]
        raised := none
        timerRaised := r.timerRaised }
    else if power_plugged && BATTERY_HIGH ≤ battery_level then
      let r := check_smart_plug_state s isOn "off" pollBudget
      { state := r.state
        cmds := PlugCmd.turnOff :: r.cmds
        verifyTargets := ["off"]
        raised := none
        timerRaised := r.timerRaised }
    else
      { state := s, cmds := [], verifyTargets := [], raised := none, timerRaised := none }

/-- The external inputs consumed by one iteration of the monitoring loop:
whether the reachability query (`is_on` in
`__check_connection_to_smart_plug`) returns, what `sensors_battery()`
returns, and the plug's `is_on` answers and poll budget for a
verification, should the decision cycle run one. -/
structure CycleInput where
  isOnQueryOk : Bool
  battery : Option SensorsBattery
  isOn : Nat → Bool
  pollBudget : Nat

/-- Result of one iteration of the `while True` loop in
`LaptopSmartPowerManager.run` (lines 162-183): the updated state, the
plug commands issued, whether the loop exited (via `break` or an
uncaught `raise`), the exception propagating out of `run` (immediate
mode only), whether the connectivity check ran, the verification targets
of the decision cycle, and any timer-thread exception. -/
structure StepResult where
  state : ControllerState
  cmds : List PlugCmd
  exited : Bool
  raised : Option LSPMError
  checkedConnection : Bool
  verifyTargets : List String
  timerRaised : Option LSPMError
  deriving Repr

/-- One iteration of `run`: `self.__finished.wait(REFRESH_TIME)` returns —
immediately when the event is already (or becomes) set, else after
`REFRESH_TIME` seconds; if the event is set the loop breaks with no
further work; otherwise the connectivity check and the decision cycle run
under `try`, and an exception is logged and then either stored in
`self.exception` (when `handle_exceptions_in_main_thread`, the loop
continuing) or re-raised (terminating the loop and the thread). -/
def runStep (s : ControllerState) (inp : CycleInput) : StepResult :=
  if s.finished then
    { state := s, cmds := [], exited := true, raised := none
      checkedConnection := false, verifyTargets := [], timerRaised := none }
  else
    let c := check_connection_to_smart_plug s inp.isOnQueryOk
    match c.raised with
    | some e =>
      if s.handleExceptionsInMainThread then
        { state := { c.state with exception := some e }
          cmds := c.cmds, exited := false, raised := none
          checkedConnection := true, verifyTargets := [], timerRaised := none }
      else
        { state := c.state, cmds := c.cmds, exited := true, raised := some e
          checkedConnection := true, verifyTargets := [], timerRaised := none }
    | none =>
      let m := manage_power_supply c.state inp.battery inp.isOn inp.pollBudget
      match m.raised with
      | some e =>
        if s.handleExceptionsInMainThread then
          { state := { m.state with exception := some e }
            cmds := c.cmds ++ m.cmds, exited := false, raised := none
            checkedConnection := true, verifyTargets := m.verifyTargets
            timerRaised := m.timerRaised }
        else
          { state := m.state, cmds := c.cmds ++ m.cmds, exited := true
            raised := some e, checkedConnection := true
            verifyTargets := m.verifyTargets, timerRaised := m.timerRaised }
      | none =>
        { state := m.state, cmds := c.cmds ++ m.cmds, exited := false
          raised := none, checkedConnection := true
          verifyTargets := m.verifyTargets, timerRaised := m.timerRaised }

/-- The monitoring loop of `run` driven by a finite script of per-cycle
inputs: iterates `runStep` until the loop exits or the script is
exhausted. Returns the final state, the concatenated plug-command trace,
the exception that escaped `run` (if any) and whether the loop exited
within the script. -/
def runLoop (s : ControllerState) :
    List CycleInput → ControllerState × List PlugCmd × Option LSPMError × Bool
  | [] => (s, [], none, false)
  | inp :: rest =>
    let r := runStep s inp
    if r.exited then (r.state, r.cmds, r.raised, true)
    else
      let t := runLoop r.state rest
      (t.1, r.cmds ++ t.2.1, t.2.2.1, t.2.2.2)

/-- The external inputs consumed by `__init__`: whether the reachability
query returns, the plug's `is_on` answers during the forced-off
verification, what `sensors_battery()` returns for the construction-time
decision cycle, the plug's `is_on` answers during that cycle's
verification, and the poll budget. -/
structure InitInput where
  isOnQueryOk : Bool
  isOnInit : Nat → Bool
  battery : Option SensorsBattery
  isOnCycle : Nat → Bool
  pollBudget : Nat

/-- Result of `LaptopSmartPowerManager.__init__`: the state of the
controller when the constructor returns or raises, the plug commands it
issued in order, the exception propagating out of the constructor (if
any), the exceptions raised on timer threads in order, the verification
targets in order, and whether the interrupt event handler got
installed (line 57, reached only when nothing propagated before it). -/
structure InitResult where
  state : ControllerState
  cmds : List PlugCmd
  raised : Option LSPMError
  timerRaised : List LSPMError
  verifyTargets : List String
  handlerInstalled : Bool
  deriving Repr

/-- `LaptopSmartPowerManager.__init__` (lines 42-57): initializes the
state fields, checks the connection (raising `SmartPlugConnectionError`
and returning at once on failure), sends `turn_off`, verifies state
"off", runs one decision cycle via `__manage_power_supply` (whose
battery-read exception would propagate out of the constructor), and
finally installs the interrupt event handler. `Thread.start()` is never
called here, so no background execution context is started. -/
def init (handleExceptionsInMainThread : Bool) (inp : InitInput) : InitResult :=
  let s0 := initialState handleExceptionsInMainThread
  let c := check_connection_to_smart_plug s0 inp.isOnQueryOk
  match c.raised with
  | some e =>
    { state := c.state, cmds := c.cmds, raised := some e
      timerRaised := [], verifyTargets := [], handlerInstalled := false }
  | none =>
    let r1 := check_smart_plug_state c.state inp.isOnInit "off" inp.pollBudget
    let m := manage_power_supply r1.state inp.battery inp.isOnCycle inp.pollBudget
    { state := m.state
      cmds := c.cmds ++ [PlugCmd.turnOff] ++ r1.cmds ++ m.cmds
      raised := m.raised
      timerRaised := (r1.timerRaised.toList ++ m.timerRaised.toList)
      verifyTargets := "off" :: m.verifyTargets
      handlerInstalled := m.raised.isNone }

/-! ### Helper lemmas -/

theorem pollConverges_iff (isOn : Nat → Bool) (e : Bool) (n : Nat) :
    pollConverges isOn e n = true ↔ ∃ k < n, isOn k = e := by
  simp [pollConverges, List.any_eq_true, List.mem_range]

theorem stop_fst (s : ControllerState) : (stop s).1 = { s with finished := true } := by
  cases hc : s.connectionLost <;> simp [stop, hc]

theorem stop_snd (s : ControllerState) :
    (stop s).2 = if s.connectionLost then [] else [PlugCmd.turnOff] := by
  cases hc : s.connectionLost <;> simp [stop, hc]

theorem check_smart_plug_state_eq (s : ControllerState) (isOn : Nat → Bool)
    (st : String) (n : Nat) :
    check_smart_plug_state s isOn st n =
      if pollConverges isOn (expected_state st) n then
        { state := s, cmds := [], timerRaised := none,
          returnedNormally := true, loggedConfirmed := true }
      else
        { state := { s with connectionLost := true, finished := true },
          cmds := [], timerRaised := some (.smartPlugInteractionError st),
          returnedNormally := true, loggedConfirmed := true } := by
  cases s
  cases h : pollConverges isOn (expected_state st) n <;>
    simp [check_smart_plug_state, stop, h]

theorem check_smart_plug_state_cmds_nil (s : ControllerState) (isOn : Nat → Bool)
    (st : String) (n : Nat) : (check_smart_plug_state s isOn st n).cmds = [] := by
  rw [check_smart_plug_state_eq]
  split <;> rfl

theorem check_smart_plug_state_preserves (s : ControllerState) (isOn : Nat → Bool)
    (st : String) (n : Nat) :
    ((check_smart_plug_state s isOn st n).state.exception = s.exception ∧
     (check_smart_plug_state s isOn st n).state.handleExceptionsInMainThread =
       s.handleExceptionsInMainThread ∧
     (check_smart_plug_state s isOn st n).state.threadStarted = s.threadStarted) := by
  rw [check_smart_plug_state_eq]
  split <;> simp

theorem check_smart_plug_state_sticky (s : ControllerState) (isOn : Nat → Bool)
    (st : String) (n : Nat) (h : s.connectionLost = true) :
    (check_smart_plug_state s isOn st n).state.connectionLost = true := by
  rw [check_smart_plug_state_eq]
  split <;> simp [h]

theorem manage_power_supply_turn_on (s : ControllerState) (p : Int)
    (isOn : Nat → Bool) (n : Nat) (h : p < BATTERY_LOW) :
    manage_power_supply s (some ⟨p, some false⟩) isOn n =
      { state := (check_smart_plug_state s isOn "on" n).state
        cmds := [PlugCmd.turnOn]
        verifyTargets := ["on"]
        raised := none
        timerRaised := (check_smart_plug_state s isOn "on" n).timerRaised } := by
  simp [manage_power_supply, get_battery_state, h, check_smart_plug_state_cmds_nil]

theorem manage_power_supply_turn_off (s : ControllerState) (p : Int)
    (isOn : Nat → Bool) (n : Nat) (h : BATTERY_HIGH ≤ p) :
    manage_power_supply s (some ⟨p, some true⟩) isOn n =
      { state := (check_smart_plug_state s isOn "off" n).state
        cmds := [PlugCmd.turnOff]
        verifyTargets := ["off"]
        raised := none
        timerRaised := (check_smart_plug_state s isOn "off" n).timerRaised } := by
  simp [manage_power_supply, get_battery_state, h, check_smart_plug_state_cmds_nil]

theorem manage_power_supply_noop (s : ControllerState) (p : Int) (plugged : Bool)
    (isOn : Nat → Bool) (n : Nat)
    (h1 : ¬(plugged = false ∧ p < BATTERY_LOW))
    (h2 : ¬(plugged = true ∧ BATTERY_HIGH ≤ p)) :
    manage_power_supply s (some ⟨p, some plugged⟩) isOn n =
      { state := s, cmds := [], verifyTargets := [], raised := none,
        timerRaised := none } := by
  cases plugged
  · have hp : ¬p < BATTERY_LOW := fun hc => h1 ⟨rfl, hc⟩
    simp [manage_power_supply, get_battery_state, hp]
  · have hp : ¬BATTERY_HIGH ≤ p := fun hc => h2 ⟨rfl, hc⟩
    simp [manage_power_supply, get_battery_state, hp]

theorem manage_power_supply_sticky (s : ControllerState) (b : Option SensorsBattery)
    (isOn : Nat → Bool) (n : Nat) (h : s.connectionLost = true) :
    (manage_power_supply s b isOn n).state.connectionLost = true := by
  unfold manage_power_supply
  cases hb : get_battery_state b with
  | error e => simpa using h
  | ok v =>
    simp only []
    split
    · exact check_smart_plug_state_sticky _ _ _ _ h
    · split
      · exact check_smart_plug_state_sticky _ _ _ _ h
      · simpa using h

theorem check_connection_sticky (s : ControllerState) (ok : Bool)
    (h : s.connectionLost = true) :
    (check_connection_to_smart_plug s ok).state.connectionLost = true := by
  cases ok <;> simp [check_connection_to_smart_plug, stop_fst, h]

theorem runStep_finished (s : ControllerState) (inp : CycleInput)
    (h : s.finished = true) :
    runStep s inp =
      { state := s, cmds := [], exited := true, raised := none,
        checkedConnection := false, verifyTargets := [], timerRaised := none } := by
  simp [runStep, h]

theorem manage_power_supply_threadStarted (s : ControllerState)
    (b : Option SensorsBattery) (isOn : Nat → Bool) (n : Nat) :
    (manage_power_supply s b isOn n).state.threadStarted = s.threadStarted := by
  unfold manage_power_supply
  cases hb : get_battery_state b with
  | error e => rfl
  | ok v =>
    simp only []
    split
    · exact (check_smart_plug_state_preserves _ _ _ _).2.2
    · split
      · exact (check_smart_plug_state_preserves _ _ _ _).2.2
      · rfl

theorem init_threadStarted (handleExc : Bool) (inp : InitInput) :
    (init handleExc inp).state.threadStarted = false := by
  cases hok : inp.isOnQueryOk
  · simp [init, check_connection_to_smart_plug, hok, stop, initialState]
  · simp only [init, check_connection_to_smart_plug, hok, if_pos]
    rw [manage_power_supply_threadStarted, (check_smart_plug_state_preserves _ _ _ _).2.2]
    rfl

theorem runStep_sticky (s : ControllerState) (inp : CycleInput)
    (h : s.connectionLost = true) :
    (runStep s inp).state.connectionLost = true := by
  cases hf : s.finished
  · cases hok : inp.isOnQueryOk
    · cases hm : s.handleExceptionsInMainThread <;>
        simp [runStep, hf, hok, hm, check_connection_to_smart_plug, stop, h]
    · have hs : (manage_power_supply s inp.battery inp.isOn inp.pollBudget).state.connectionLost
          = true := manage_power_supply_sticky _ _ _ _ h
      cases he : (manage_power_supply s inp.battery inp.isOn inp.pollBudget).raised <;>
        cases hm : s.handleExceptionsInMainThread <;>
          simp [runStep, hf, hok, hm, check_connection_to_smart_plug, he, hs]
  · rw [runStep_finished s inp hf]
    exact h

/-! ### Claim theorems -/

/-- C1: the decision cycle is a pure function of the battery snapshot: for
every `(percent, isPlugged)`, if unplugged with `percent < BATTERY_LOW` it
commands turn-on and then verifies state "on"; else if plugged with
`percent ≥ BATTERY_HIGH` (boundary included) it commands turn-off and then
verifies state "off"; in every other combination (including
`percent = BATTERY_LOW` while unplugged, the low comparison being strict)
no turn-on or turn-off command is issued. -/
theorem manage_power_supply_decision_policy (s : ControllerState) (percent : Int)
    (isPlugged : Bool) (isOn : Nat → Bool) (pollBudget : Nat) :
    (isPlugged = false → percent < BATTERY_LOW →
      (manage_power_supply s (some ⟨percent, some isPlugged⟩) isOn pollBudget).cmds =
        [PlugCmd.turnOn] ∧
      (manage_power_supply s (some ⟨percent, some isPlugged⟩) isOn pollBudget).verifyTargets =
        ["on"]) ∧
    (isPlugged = true → BATTERY_HIGH ≤ percent →
      (manage_power_supply s (some ⟨percent, some isPlugged⟩) isOn pollBudget).cmds =
        [PlugCmd.turnOff] ∧
      (manage_power_supply s (some ⟨percent, some isPlugged⟩) isOn pollBudget).verifyTargets =
        ["off"]) ∧
    (¬(isPlugged = false ∧ percent < BATTERY_LOW) →
     ¬(isPlugged = true ∧ BATTERY_HIGH ≤ percent) →
      (manage_power_supply s (some ⟨percent, some isPlugged⟩) isOn pollBudget).cmds = [] ∧
      (manage_power_supply s (some ⟨percent, some isPlugged⟩) isOn pollBudget).verifyTargets =
        []) ∧
    (isPlugged = false → percent = BATTERY_LOW →
      (manage_power_supply s (some ⟨percent, some isPlugged⟩) isOn pollBudget).cmds = []) ∧
    (isPlugged = true → percent = BATTERY_HIGH →
      (manage_power_supply s (some ⟨percent, some isPlugged⟩) isOn pollBudget).cmds =
        [PlugCmd.turnOff]) := by
  refine ⟨?_, ?_, ?_, ?_, ?_⟩
  · rintro rfl hlow
    rw [manage_power_supply_turn_on s percent isOn pollBudget hlow]
    exact ⟨rfl, rfl⟩
  · rintro rfl hhigh
    rw [manage_power_supply_turn_off s percent isOn pollBudget hhigh]
    exact ⟨rfl, rfl⟩
  · intro h1 h2
    rw [manage_power_supply_noop s percent isPlugged isOn pollBudget h1 h2]
    exact ⟨rfl, rfl⟩
  · rintro rfl rfl
    rw [manage_power_supply_noop s BATTERY_LOW false isOn pollBudget
      (by rintro ⟨-, hc⟩; exact absurd hc (lt_irrefl _)) (by rintro ⟨hc, -⟩; cases hc)]
  · rintro rfl rfl
    rw [manage_power_supply_turn_off s BATTERY_HIGH isOn pollBudget le_rfl]

/-- Closed instance of `manage_power_supply_decision_policy`: a snapshot of
15 percent while unplugged makes the decision cycle command turn-on and
verify state "on". -/
theorem manage_power_supply_decision_policy_witness :
    (manage_power_supply (initialState false) (some ⟨15, some false⟩) (fun _ => true) 1).cmds =
      [PlugCmd.turnOn] ∧
    (manage_power_supply (initialState false) (some ⟨15, some false⟩) (fun _ => true) 1).verifyTargets =
      ["on"] :=
  (manage_power_supply_decision_policy (initialState false) 15 false (fun _ => true) 1).1
    rfl (by decide)

/-- C7: a stop request set while the monitoring loop is in its
`REFRESH_TIME` wait makes the loop exit without running another decision
cycle: no connectivity check, no verification and no plug command happen
in that iteration, and the loop ends. -/
theorem runStep_stop_requested (s : ControllerState) (inp : CycleInput)
    (rest : List CycleInput) (h : s.finished = true) :
    runStep s inp =
      { state := s, cmds := [], exited := true, raised := none,
        checkedConnection := false, verifyTargets := [], timerRaised := none } ∧
    runLoop s (inp :: rest) = (s, [], none, true) := by
  have hr := runStep_finished s inp h
  refine ⟨hr, ?_⟩
  simp [runLoop, hr]

/-- Closed instance of `runStep_stop_requested`: a controller whose stop
flag is set exits the loop at once, issuing nothing. -/
theorem runStep_stop_requested_witness :
    runStep { initialState false with finished := true } ⟨true, none, (fun _ => false), 1⟩ =
      { state := { initialState false with finished := true }, cmds := [], exited := true,
        raised := none, checkedConnection := false, verifyTargets := [],
        timerRaised := none } ∧
    runLoop { initialState false with finished := true }
        [⟨true, none, (fun _ => false), 1⟩] =
      ({ initialState false with finished := true }, [], none, true) :=
  runStep_stop_requested { initialState false with finished := true }
    ⟨true, none, (fun _ => false), 1⟩ [] rfl

/-- C8: the battery sensor read fails distinctly for each missing field:
a missing AC-plugged status raises the "ac_power_cable" status-check
error, a missing battery object raises the distinct "battery_state"
status-check error, and when both fields are present it returns
`(percent, power_plugged)` without raising. -/
theorem get_battery_state_distinct_errors (battery : Option SensorsBattery) :
    (battery = none →
      get_battery_state battery =
        .error (.powerSupplyStatusCheckError "battery_state")) ∧
    (∀ b : SensorsBattery, battery = some b → b.power_plugged = none →
      get_battery_state battery =
        .error (.powerSupplyStatusCheckError "ac_power_cable")) ∧
    (∀ (b : SensorsBattery) (p : Bool), battery = some b → b.power_plugged = some p →
      get_battery_state battery = .ok (b.percent, p)) ∧
    LSPMError.powerSupplyStatusCheckError "ac_power_cable" ≠
      LSPMError.powerSupplyStatusCheckError "battery_state" ∧
    errorMsg (.powerSupplyStatusCheckError "ac_power_cable") ≠
      errorMsg (.powerSupplyStatusCheckError "battery_state") := by
  refine ⟨?_, ?_, ?_, by decide, by decide⟩
  · rintro rfl
    rfl
  · rintro b rfl hp
    simp [get_battery_state, hp]
  · rintro b p rfl hp
    simp [get_battery_state, hp]

/-- Closed instance of `get_battery_state_distinct_errors`: a battery
object whose `power_plugged` attribute is `None` yields the
"ac_power_cable" error, whose message differs from the "battery_state"
one. -/
theorem get_battery_state_distinct_errors_witness :
    get_battery_state (some ⟨50, none⟩) =
      .error (.powerSupplyStatusCheckError "ac_power_cable") ∧
    errorMsg (.powerSupplyStatusCheckError "ac_power_cable") ≠
      errorMsg (.powerSupplyStatusCheckError "battery_state") :=
  ⟨(get_battery_state_distinct_errors (some ⟨50, none⟩)).2.1 ⟨50, none⟩ rfl rfl,
   (get_battery_state_distinct_errors (some ⟨50, none⟩)).2.2.2.2⟩

/-- C9: when the state-verification timeout fires, the verification
method still returns normally to its caller (reaching the state-confirmed
log line, raising nothing in the calling context), and the
`SmartPlugInteractionError` is raised only on the timer's execution
context. -/
theorem check_smart_plug_state_returns_normally (s : ControllerState)
    (isOn : Nat → Bool) (state : String) (pollBudget : Nat) :
    (check_smart_plug_state s isOn state pollBudget).returnedNormally = true ∧
    (check_smart_plug_state s isOn state pollBudget).loggedConfirmed = true ∧
    (pollConverges isOn (expected_state state) pollBudget = false →
      (check_smart_plug_state s isOn state pollBudget).timerRaised =
        some (.smartPlugInteractionError state)) := by
  rw [check_smart_plug_state_eq]
  cases h : pollConverges isOn (expected_state state) pollBudget <;> simp [h]

/-- Closed instance of `check_smart_plug_state_returns_normally`: a plug
reporting "on" forever while "off" is verified makes the timer raise the
interaction error, yet the caller returns normally. -/
theorem check_smart_plug_state_returns_normally_witness :
    pollConverges (fun _ => true) (expected_state "off") 1 = false ∧
    (check_smart_plug_state (initialState false) (fun _ => true) "off" 1).returnedNormally =
      true ∧
    (check_smart_plug_state (initialState false) (fun _ => true) "off" 1).timerRaised =
      some (.smartPlugInteractionError "off") :=
  ⟨by decide,
   (check_smart_plug_state_returns_normally (initialState false) (fun _ => true) "off" 1).1,
   (check_smart_plug_state_returns_normally (initialState false) (fun _ => true) "off" 1).2.2
     (by decide)⟩

/-- C5: constructing the controller against a driver whose state query
fails raises `SmartPlugConnectionError` immediately — no plug command was
issued, the interrupt handler was not installed — and afterwards no
background execution context is running (`Thread.start` is never called
by the constructor, on any path). -/
theorem init_unreachable_driver_fails_fast (handleExc : Bool) (inp : InitInput) :
    (init handleExc inp).state.threadStarted = false ∧
    (inp.isOnQueryOk = false →
      (init handleExc inp).raised =
        some (.smartPlugConnectionError "Connection lost to the Smart Plug") ∧
      (init handleExc inp).cmds = [] ∧
      (init handleExc inp).handlerInstalled = false ∧
      (init handleExc inp).state.finished = true ∧
      (init handleExc inp).state.connectionLost = true) := by
  refine ⟨init_threadStarted handleExc inp, ?_⟩
  intro hok
  simp [init, check_connection_to_smart_plug, hok, stop, initialState]

/-- Closed instance of `init_unreachable_driver_fails_fast`: an
unreachable driver makes construction raise the connectivity error with
no command sent and no background context started. -/
theorem init_unreachable_driver_fails_fast_witness :
    (init false ⟨false, (fun _ => false), none, (fun _ => false), 1⟩).state.threadStarted =
      false ∧
    (init false ⟨false, (fun _ => false), none, (fun _ => false), 1⟩).raised =
      some (.smartPlugConnectionError "Connection lost to the Smart Plug") ∧
    (init false ⟨false, (fun _ => false), none, (fun _ => false), 1⟩).cmds = [] ∧
    (init false ⟨false, (fun _ => false), none, (fun _ => false), 1⟩).handlerInstalled =
      false ∧
    (init false ⟨false, (fun _ => false), none, (fun _ => false), 1⟩).state.finished =
      true ∧
    (init false ⟨false, (fun _ => false), none, (fun _ => false), 1⟩).state.connectionLost =
      true :=
  ⟨(init_unreachable_driver_fails_fast false
      ⟨false, (fun _ => false), none, (fun _ => false), 1⟩).1,
   (init_unreachable_driver_fails_fast false
      ⟨false, (fun _ => false), none, (fun _ => false), 1⟩).2 rfl⟩

/-- C10: after forcing the plug off and verifying "off", the constructor
runs one full decision cycle before installing the interrupt handler: for
every initial snapshot with `isPlugged = false` and
`percent < BATTERY_LOW`, the constructor itself commands turn-on and
verifies state "on", so construction can leave the plug on. -/
theorem init_runs_decision_cycle (handleExc : Bool) (percent : Int)
    (isOnInit isOnCycle : Nat → Bool) (pollBudget : Nat)
    (hlow : percent < BATTERY_LOW) :
    (init handleExc ⟨true, isOnInit, some ⟨percent, some false⟩, isOnCycle, pollBudget⟩).cmds =
      [PlugCmd.turnOff, PlugCmd.turnOn] ∧
    (init handleExc ⟨true, isOnInit, some ⟨percent, some false⟩, isOnCycle, pollBudget⟩).verifyTargets =
      ["off", "on"] ∧
    (init handleExc ⟨true, isOnInit, some ⟨percent, some false⟩, isOnCycle, pollBudget⟩).raised =
      none ∧
    (init handleExc ⟨true, isOnInit, some ⟨percent, some false⟩, isOnCycle, pollBudget⟩).handlerInstalled =
      true := by
  have hm := fun (s : ControllerState) (isOn : Nat → Bool) (n : Nat) =>
    manage_power_supply_turn_on s percent isOn n hlow
  simp [init, check_connection_to_smart_plug, hm, check_smart_plug_state_cmds_nil]

/-- Closed instance of `init_runs_decision_cycle`: constructing with a
15-percent unplugged battery issues turn-off then turn-on, verifying
"off" then "on". -/
theorem init_runs_decision_cycle_witness :
    (init false ⟨true, (fun _ => false), some ⟨15, some false⟩, (fun _ => true), 1⟩).cmds =
      [PlugCmd.turnOff, PlugCmd.turnOn] ∧
    (init false ⟨true, (fun _ => false), some ⟨15, some false⟩, (fun _ => true), 1⟩).verifyTargets =
      ["off", "on"] ∧
    (init false ⟨true, (fun _ => false), some ⟨15, some false⟩, (fun _ => true), 1⟩).raised =
      none ∧
    (init false ⟨true, (fun _ => false), some ⟨15, some false⟩, (fun _ => true), 1⟩).handlerInstalled =
      true :=
  init_runs_decision_cycle false 15 (fun _ => false) (fun _ => true) 1 (by decide)

/-- C2 counterexample: after the constructor's "off" verification times
out (the timer raised the interaction error, visible in `timerRaised`),
the constructor's decision cycle still issues a turn-on command, so a
plug command is issued after a failed verification. -/
theorem check_smart_plug_state_command_after_timeout_cx :
    (init false ⟨true, (fun _ => true), some ⟨10, some false⟩, (fun _ => true), 1⟩).timerRaised =
      [.smartPlugInteractionError "off"] ∧
    (init false ⟨true, (fun _ => true), some ⟨10, some false⟩, (fun _ => true), 1⟩).state.connectionLost =
      true ∧
    (init false ⟨true, (fun _ => true), some ⟨10, some false⟩, (fun _ => true), 1⟩).cmds =
      [PlugCmd.turnOff, PlugCmd.turnOn] := by
  decide

/-- C2 amended: state verification succeeds (no error) iff some `is_on`
poll inside the timeout window reports the target value; otherwise the
timer raises exactly one `SmartPlugInteractionError` naming the target
state, sets the connection-lost flag and requests stop, and neither the
verification call itself, nor a subsequent `stop()`, nor a subsequent
monitoring-loop cycle issues any plug command — only the constructor's
decision cycle following a failed construction-time verification still
can. -/
theorem check_smart_plug_state_timeout_amended (s : ControllerState)
    (isOn : Nat → Bool) (state : String) (pollBudget : Nat) :
    ((check_smart_plug_state s isOn state pollBudget).timerRaised = none ↔
      ∃ k < pollBudget, isOn k = expected_state state) ∧
    (check_smart_plug_state s isOn state pollBudget).cmds = [] ∧
    (pollConverges isOn (expected_state state) pollBudget = false →
      (check_smart_plug_state s isOn state pollBudget).timerRaised =
        some (.smartPlugInteractionError state) ∧
      errorMsg (.smartPlugInteractionError state) =
        some ("Unable to turn " ++ state ++ " the Smart Plug") ∧
      (check_smart_plug_state s isOn state pollBudget).state.connectionLost = true ∧
      (check_smart_plug_state s isOn state pollBudget).state.finished = true ∧
      (stop (check_smart_plug_state s isOn state pollBudget).state).2 = [] ∧
      ∀ inp : CycleInput,
        (runStep (check_smart_plug_state s isOn state pollBudget).state inp).cmds = [] ∧
        (runStep (check_smart_plug_state s isOn state pollBudget).state inp).exited =
          true) := by
  have hiff := pollConverges_iff isOn (expected_state state) pollBudget
  rw [check_smart_plug_state_eq]
  cases h : pollConverges isOn (expected_state state) pollBudget
  · rw [h] at hiff
    simp only [Bool.false_eq_true, false_iff] at hiff
    rw [if_neg Bool.false_ne_true]
    refine ⟨by simpa using hiff, rfl, fun _ => ⟨rfl, rfl, rfl, rfl, ?_, ?_⟩⟩
    · rw [stop_snd]
      simp
    · intro inp
      rw [runStep_finished _ inp rfl]
      exact ⟨rfl, rfl⟩
  · rw [h] at hiff
    rw [if_pos rfl]
    exact ⟨by simpa using hiff, rfl, fun hc => absurd hc (by simp)⟩

/-- Closed instance of `check_smart_plug_state_timeout_amended`: with a
plug stuck reporting "on" during an "off" verification, the timer raises
the interaction error, the flag and stop are set, and neither that call
nor a later `stop()` or loop cycle sends a command. -/
theorem check_smart_plug_state_timeout_amended_witness :
    pollConverges (fun _ => true) (expected_state "off") 2 = false ∧
    (check_smart_plug_state (initialState false) (fun _ => true) "off" 2).timerRaised =
      some (.smartPlugInteractionError "off") ∧
    (check_smart_plug_state (initialState false) (fun _ => true) "off" 2).state.connectionLost =
      true ∧
    (stop (check_smart_plug_state (initialState false) (fun _ => true) "off" 2).state).2 =
      [] ∧
    (runStep (check_smart_plug_state (initialState false) (fun _ => true) "off" 2).state
        ⟨true, none, (fun _ => false), 1⟩).cmds = [] :=
  have h := (check_smart_plug_state_timeout_amended (initialState false)
    (fun _ => true) "off" 2).2.2 (by decide)
  ⟨by decide, h.1, h.2.2.1, h.2.2.2.2.1,
   (h.2.2.2.2.2 ⟨true, none, (fun _ => false), 1⟩).1⟩

/-- C3 counterexample: with the connection not lost, each of two
sequential `stop()` calls sends its own shutdown turn-off, so two
commands are sent across the two calls, not at most one. -/
theorem stop_twice_two_commands_cx :
    (stop (initialState false)).2 ++ (stop (stop (initialState false)).1).2 =
      [PlugCmd.turnOff, PlugCmd.turnOff] := by
  decide

/-- C3 amended: calling `stop()` twice is safe in that the second call
takes the same unguarded path and leaves the stop flag set, but the
shutdown command is not deduplicated: each call made while the connection
is not lost sends one turn-off (two across two sequential calls), and
once the connection is lost neither call sends any. -/
theorem stop_twice_amended (s : ControllerState) :
    (stop (stop s).1).1.finished = true ∧
    (stop (stop s).1).1.connectionLost = s.connectionLost ∧
    (s.connectionLost = true → (stop s).2 ++ (stop (stop s).1).2 = []) ∧
    (s.connectionLost = false →
      (stop s).2 ++ (stop (stop s).1).2 = [PlugCmd.turnOff, PlugCmd.turnOff]) := by
  cases hc : s.connectionLost <;> simp [stop, hc]

/-- Closed instance of `stop_twice_amended`: from a fresh controller
state, two `stop()` calls leave the flag set and send two turn-off
commands. -/
theorem stop_twice_amended_witness :
    (stop (stop (initialState false)).1).1.finished = true ∧
    (stop (initialState false)).2 ++ (stop (stop (initialState false)).1).2 =
      [PlugCmd.turnOff, PlugCmd.turnOff] :=
  ⟨(stop_twice_amended (initialState false)).1,
   (stop_twice_amended (initialState false)).2.2.2 rfl⟩

/-- C4 counterexample: a decision cycle run from a state with the
connection-lost flag set still issues a turn-on command, and this is
reachable: when the constructor's forced-off verification times out
(setting the flag, as `timerRaised` shows), the constructor's decision
cycle afterwards issues turn-on. -/
theorem connection_lost_command_after_flag_cx :
    (manage_power_supply
        { initialState false with connectionLost := true, finished := true }
        (some ⟨15, some false⟩) (fun _ => true) 1).cmds = [PlugCmd.turnOn] ∧
    (init false ⟨true, (fun _ => true), some ⟨15, some false⟩, (fun _ => true), 1⟩).timerRaised =
      [.smartPlugInteractionError "off"] ∧
    (init false ⟨true, (fun _ => true), some ⟨15, some false⟩, (fun _ => true), 1⟩).state.connectionLost =
      true ∧
    (init false ⟨true, (fun _ => true), some ⟨15, some false⟩, (fun _ => true), 1⟩).cmds =
      [PlugCmd.turnOff, PlugCmd.turnOn] := by
  decide

/-- C4 amended: the connection-lost flag is sticky — `stop`, the
connectivity check, state verification, the decision cycle and the loop
step all preserve it — and once it is set, `stop()` sends nothing, state
verification sends nothing, and a monitoring-loop cycle whose stop flag
is also set (as on every code path that sets connection-lost) sends
nothing and exits; the constructor's decision cycle, however, still runs
after a timed-out forced-off verification set the flag and can then
command the plug. -/
theorem connection_lost_sticky_suppression :
    (∀ s : ControllerState, s.connectionLost = true →
      (stop s).1.connectionLost = true ∧ (stop s).2 = []) ∧
    (∀ (s : ControllerState) (ok : Bool), s.connectionLost = true →
      (check_connection_to_smart_plug s ok).state.connectionLost = true) ∧
    (∀ (s : ControllerState) (isOn : Nat → Bool) (st : String) (n : Nat),
      (check_smart_plug_state s isOn st n).cmds = [] ∧
      (s.connectionLost = true →
        (check_smart_plug_state s isOn st n).state.connectionLost = true)) ∧
    (∀ (s : ControllerState) (b : Option SensorsBattery) (isOn : Nat → Bool) (n : Nat),
      s.connectionLost = true →
      (manage_power_supply s b isOn n).state.connectionLost = true) ∧
    (∀ (s : ControllerState) (inp : CycleInput), s.connectionLost = true →
      (runStep s inp).state.connectionLost = true ∧
      (s.finished = true →
        (runStep s inp).cmds = [] ∧ (runStep s inp).exited = true)) := by
  refine ⟨?_, check_connection_sticky, ?_, manage_power_supply_sticky, ?_⟩
  · intro s h
    refine ⟨by rw [stop_fst]; simpa using h, by rw [stop_snd]; simp [h]⟩
  · intro s isOn st n
    exact ⟨check_smart_plug_state_cmds_nil s isOn st n,
      check_smart_plug_state_sticky s isOn st n⟩
  · intro s inp h
    refine ⟨runStep_sticky s inp h, fun hf => ?_⟩
    rw [runStep_finished s inp hf]
    exact ⟨rfl, rfl⟩

/-- Closed instance of `connection_lost_sticky_suppression`: with the
flag set, `stop()` sends nothing and a loop cycle sends nothing and
exits. -/
theorem connection_lost_sticky_suppression_witness :
    (stop { initialState false with connectionLost := true }).2 = [] ∧
    (runStep { initialState false with connectionLost := true, finished := true }
        ⟨true, none, (fun _ => false), 1⟩).cmds = [] ∧
    (runStep { initialState false with connectionLost := true, finished := true }
        ⟨true, none, (fun _ => false), 1⟩).exited = true :=
  ⟨(connection_lost_sticky_suppression.1
      { initialState false with connectionLost := true } rfl).2,
   ((connection_lost_sticky_suppression.2.2.2.2
      { initialState false with connectionLost := true, finished := true }
      ⟨true, none, (fun _ => false), 1⟩ rfl).2 rfl).1,
   ((connection_lost_sticky_suppression.2.2.2.2
      { initialState false with connectionLost := true, finished := true }
      ⟨true, none, (fun _ => false), 1⟩ rfl).2 rfl).2⟩

/-- C6 counterexample: in deferred mode, a battery status-check error is
captured but the loop does not exit (the stop flag stays unset), and a
second cycle's different error overwrites the slot — it is not
write-once. -/
theorem deferred_mode_overwrite_cx :
    (runStep { initialState true with threadStarted := true }
        ⟨true, none, (fun _ => false), 1⟩).state.exception =
      some (.powerSupplyStatusCheckError "battery_state") ∧
    (runStep { initialState true with threadStarted := true }
        ⟨true, none, (fun _ => false), 1⟩).exited = false ∧
    (runStep
        (runStep { initialState true with threadStarted := true }
          ⟨true, none, (fun _ => false), 1⟩).state
        ⟨true, some ⟨50, none⟩, (fun _ => false), 1⟩).state.exception =
      some (.powerSupplyStatusCheckError "ac_power_cable") ∧
    (runStep
        (runStep { initialState true with threadStarted := true }
          ⟨true, none, (fun _ => false), 1⟩).state
        ⟨true, some ⟨50, none⟩, (fun _ => false), 1⟩).exited = false := by
  decide

/-- C6 amended: under deferred-error mode every error raised during a
loop cycle is captured into the exception slot and never propagates out
of `run`; but the loop exits only when stop was requested — a
connectivity failure requests stop (so the loop ends next iteration)
while a battery status-check error does not, and the slot is overwritten
by later captures rather than write-once. -/
theorem deferred_mode_error_capture (s : ControllerState) (inp : CycleInput)
    (hm : s.handleExceptionsInMainThread = true) :
    (runStep s inp).raised = none ∧
    (s.finished = false → inp.isOnQueryOk = true → inp.battery = none →
      (runStep s inp).state.exception =
        some (.powerSupplyStatusCheckError "battery_state") ∧
      (runStep s inp).exited = false ∧
      (runStep s inp).state.finished = false) ∧
    (s.finished = false → inp.isOnQueryOk = false →
      (runStep s inp).state.exception =
        some (.smartPlugConnectionError "Connection lost to the Smart Plug") ∧
      (runStep s inp).exited = false ∧
      (runStep s inp).state.finished = true) := by
  refine ⟨?_, ?_, ?_⟩
  · cases hf : s.finished
    · cases hok : inp.isOnQueryOk
      · simp [runStep, hf, hok, check_connection_to_smart_plug, hm, stop]
      · cases he : (manage_power_supply s inp.battery inp.isOn inp.pollBudget).raised <;>
          simp [runStep, hf, hok, check_connection_to_smart_plug, hm, he]
    · rw [runStep_finished s inp hf]
  · intro hf hok hb
    simp [runStep, hf, hok, hb, check_connection_to_smart_plug,
      manage_power_supply, get_battery_state, hm]
  · intro hf hok
    simp [runStep, hf, hok, check_connection_to_smart_plug, hm, stop]

/-- Closed instance of `deferred_mode_error_capture`: a missing battery
object in deferred mode is captured into the slot, nothing escapes `run`,
and the loop keeps going. -/
theorem deferred_mode_error_capture_witness :
    (runStep (initialState true) ⟨true, none, (fun _ => false), 1⟩).raised = none ∧
    (runStep (initialState true) ⟨true, none, (fun _ => false), 1⟩).state.exception =
      some (.powerSupplyStatusCheckError "battery_state") ∧
    (runStep (initialState true) ⟨true, none, (fun _ => false), 1⟩).exited = false :=
  ⟨(deferred_mode_error_capture (initialState true)
      ⟨true, none, (fun _ => false), 1⟩ rfl).1,
   ((deferred_mode_error_capture (initialState true)
      ⟨true, none, (fun _ => false), 1⟩ rfl).2.1 rfl rfl rfl).1,
   ((deferred_mode_error_capture (initialState true)
      ⟨true, none, (fun _ => false), 1⟩ rfl).2.1 rfl rfl rfl).2.1⟩

end LSPM
